import Mathlib

/-!
Verification of the EngageVision-AI classroom-engagement core
(src/engagement/ai_engine.py and src/engagement/models.py).

Shallow embedding notes:
- A face region (a 2D grayscale numpy array) is a rectangular list of rows of
  rational pixel intensities.  `np.mean` is the sum of all pixels divided by
  the element count, `np.std` is the population standard deviation.  Since the
  standard deviation is only ever compared against the nonnegative constants
  30 and 40, the embedding compares the population *variance* against 900 and
  1600, which is equivalent; the link is proved explicitly (any c with
  0 <= c and c ^ 2 = variance orders the same way).
- The Haar-cascade face detector is an external OpenCV collaborator: the
  embedding of process_video takes, per frame, the list of detected face
  regions that the detector returned for that frame (or a read/processing
  error event, modelling the try/except around the loop).
- Wall-clock fields (timestamp, processing_time) and the video_upload_id
  foreign key are identity pass-throughs irrelevant to every claim and are
  omitted from the record embedding.
- Integer counters are Nat (they only ever increase from 0); percentages are
  exact rationals.
-/

/-- Behavior labels returned by the classifier (ai_engine.py). -/
inductive Label where
  | attentive
  | sleepy
  | distracted
  | neutral
  deriving DecidableEq, Repr

/-- A grayscale face region: rows of pixel intensities (numpy 2D array,
rectangular in every reachable input). -/
abbrev Region := List (List ℚ)

/-- Number of rows (`h` in `h, w = face_region.shape[:2]`). -/
def regionH (r : Region) : ℕ := r.length

/-- Number of columns (`w` in `h, w = face_region.shape[:2]`). -/
def regionW (r : Region) : ℕ := (r.headD []).length

/-- `face_region.size`: total element count of the 2D array, `h * w`. -/
def regionSize (r : Region) : ℕ := regionH r * regionW r

/-- Sum of all pixel intensities. -/
def regionSum (r : Region) : ℚ := (r.map (fun row => row.sum)).sum

/-- `np.mean(face_region)`: mean pixel intensity. -/
def regionMean (r : Region) : ℚ := regionSum r / (regionSize r : ℚ)

/-- Population variance of the pixel intensities; `np.std` is its square
root, so `np.std(r) < 30` iff `regionVar r < 900` and `np.std(r) > 40` iff
`regionVar r > 1600`. -/
def regionVar (r : Region) : ℚ :=
  (r.map (fun row => (row.map (fun x => (x - regionMean r) ^ 2)).sum)).sum
    / (regionSize r : ℚ)

/-- `EngagementAnalyzer.classify_behavior` (ai_engine.py lines 90-142).
`none` models the Python `face_region is None` case.  The std-deviation
thresholds 30 and 40 appear squared against the variance (see module note). -/
def classify_behavior (fr : Option Region) : Label :=
  match fr with
  | none => Label.neutral
  | some r =>
    if regionSize r = 0 then Label.neutral
    else
      let h := regionH r
      let w := regionW r
      if h = 0 ∨ w = 0 then Label.neutral
      else
        let brightness := regionMean r
        let variance := regionVar r
        let aspect_ratio : ℚ := if 0 < h then (w : ℚ) / (h : ℚ) else 1
        if brightness < 80 ∧ variance < 900 then Label.sleepy
        else if aspect_ratio < 3 / 5 ∨ aspect_ratio > 7 / 5 then Label.distracted
        else if brightness > 100 ∧ variance > 1600 ∧
                (7 / 10 < aspect_ratio ∧ aspect_ratio < 13 / 10) then Label.attentive
        else Label.neutral

/-- The classifier's decision chain on the three derived statistics
(brightness, std-deviation contrast, aspect ratio), in the source's order. -/
def classifyStats (brightness contrast aspect_ratio : ℚ) : Label :=
  if brightness < 80 ∧ contrast < 30 then Label.sleepy
  else if aspect_ratio < 3 / 5 ∨ aspect_ratio > 7 / 5 then Label.distracted
  else if brightness > 100 ∧ contrast > 40 ∧
          (7 / 10 < aspect_ratio ∧ aspect_ratio < 13 / 10) then Label.attentive
  else Label.neutral

/-- The rule order exactly as the spec words it (section 4.3, rules 3-6):
rule 3 Sleepy, else rule 4 Distracted, else rule 5 Attentive, else Neutral. -/
def classifySpecRules (brightness contrast aspect_ratio : ℚ) : Label :=
  if brightness < 80 ∧ contrast < 30 then Label.sleepy
  else if aspect_ratio < 3 / 5 ∨ aspect_ratio > 7 / 5 then Label.distracted
  else if brightness > 100 ∧ contrast > 40 ∧
          (7 / 10 < aspect_ratio ∧ aspect_ratio < 13 / 10) then Label.attentive
  else Label.neutral

/-- Snapshot shape returned by `get_current_stats` / `get_cumulative_stats`. -/
structure Stats where
  total_students : ℕ
  attentive_count : ℕ
  sleepy_count : ℕ
  distracted_count : ℕ
  neutral_count : ℕ
  engagement_percentage : ℚ
  deriving DecidableEq, Repr

/-- Mutable fields of `EngagementAnalyzer` (interval tally, cumulative tally,
frame counter, total faces).  `save_interval` is threaded as an argument. -/
structure AnalyzerState where
  frame_count : ℕ
  total_faces_detected : ℕ
  attentive_count : ℕ
  sleepy_count : ℕ
  distracted_count : ℕ
  neutral_count : ℕ
  cum_attentive : ℕ
  cum_sleepy : ℕ
  cum_distracted : ℕ
  cum_neutral : ℕ
  deriving DecidableEq, Repr

/-- Fresh analyzer: every counter starts at 0 (`EngagementAnalyzer.__init__`). -/
def initState : AnalyzerState := ⟨0, 0, 0, 0, 0, 0, 0, 0, 0, 0⟩

/-- Per-frame label tallies (`frame_attentive` .. `frame_neutral` in
`process_frame`). -/
structure FrameCounts where
  att : ℕ
  slp : ℕ
  dis : ℕ
  neu : ℕ
  deriving DecidableEq, Repr

/-- The per-face classification loop of `process_frame`: classify each detected
face region and tally the labels. -/
def countFaces (faces : List Region) : FrameCounts :=
  faces.foldl
    (fun c r =>
      match classify_behavior (some r) with
      | Label.attentive => { c with att := c.att + 1 }
      | Label.sleepy => { c with slp := c.slp + 1 }
      | Label.distracted => { c with dis := c.dis + 1 }
      | Label.neutral => { c with neu := c.neu + 1 })
    ⟨0, 0, 0, 0⟩

/-- Add one frame's tallies into the interval and cumulative counters, bump the
frame counter and the total-faces counter (`analyzer.frame_count += 1`,
`process_frame`, `analyzer.total_faces_detected += faces_detected`). -/
def applyCounts (st : AnalyzerState) (c : FrameCounts) (nfaces : ℕ) : AnalyzerState :=
  { frame_count := st.frame_count + 1
    total_faces_detected := st.total_faces_detected + nfaces
    attentive_count := st.attentive_count + c.att
    sleepy_count := st.sleepy_count + c.slp
    distracted_count := st.distracted_count + c.dis
    neutral_count := st.neutral_count + c.neu
    cum_attentive := st.cum_attentive + c.att
    cum_sleepy := st.cum_sleepy + c.slp
    cum_distracted := st.cum_distracted + c.dis
    cum_neutral := st.cum_neutral + c.neu }

/-- One loop iteration's state update for a successfully read frame:
`EngagementAnalyzer.process_frame` plus the surrounding counter bumps. -/
def processOne (st : AnalyzerState) (faces : List Region) : AnalyzerState :=
  applyCounts st (countFaces faces) faces.length

/-- `EngagementAnalyzer.get_current_stats` (ai_engine.py lines 216-228). -/
def get_current_stats (st : AnalyzerState) : Stats :=
  let total := st.attentive_count + st.sleepy_count + st.distracted_count +
    st.neutral_count
  { total_students := total
    attentive_count := st.attentive_count
    sleepy_count := st.sleepy_count
    distracted_count := st.distracted_count
    neutral_count := st.neutral_count
    engagement_percentage :=
      if total > 0 then (st.attentive_count : ℚ) / (total : ℚ) * 100 else 0 }

/-- `EngagementAnalyzer.reset_interval_stats`: zero only the interval tally. -/
def reset_interval_stats (st : AnalyzerState) : AnalyzerState :=
  { st with
    attentive_count := 0
    sleepy_count := 0
    distracted_count := 0
    neutral_count := 0 }

/-- `EngagementAnalyzer.get_cumulative_stats` (ai_engine.py lines 237-249). -/
def get_cumulative_stats (st : AnalyzerState) : Stats :=
  let total := st.cum_attentive + st.cum_sleepy + st.cum_distracted +
    st.cum_neutral
  { total_students := total
    attentive_count := st.cum_attentive
    sleepy_count := st.cum_sleepy
    distracted_count := st.cum_distracted
    neutral_count := st.cum_neutral
    engagement_percentage :=
      if total > 0 then (st.cum_attentive : ℚ) / (total : ℚ) * 100 else 0 }

/-- The persisted `EngagementRecord` (models.py), restricted to the fields the
core writes (timestamp / processing_time / video_upload_id omitted, see module
note). -/
structure EngagementRecord where
  total_students : ℕ
  attentive_count : ℕ
  sleepy_count : ℕ
  distracted_count : ℕ
  neutral_count : ℕ
  engagement_percentage : ℚ
  frame_number : ℕ
  deriving DecidableEq, Repr

/-- `EngagementRecord.save` (models.py lines 82-88): recompute
`engagement_percentage` from `attentive_count` and `total_students` before the
row is stored. -/
def EngagementRecord.save (r : EngagementRecord) : EngagementRecord :=
  if r.total_students > 0 then
    { r with engagement_percentage :=
        (r.attentive_count : ℚ) / (r.total_students : ℚ) * 100 }
  else
    { r with engagement_percentage := 0 }

/-- Build the `EngagementRecord(...)` constructor call in `process_video` from
an interval snapshot and the current frame counter. -/
def mkRecord (s : Stats) (fn : ℕ) : EngagementRecord :=
  { total_students := s.total_students
    attentive_count := s.attentive_count
    sleepy_count := s.sleepy_count
    distracted_count := s.distracted_count
    neutral_count := s.neutral_count
    engagement_percentage := s.engagement_percentage
    frame_number := fn }

/-- One event of the frame-reading loop: either `cap.read()` returned a frame
and the detector returned these face regions, or an unexpected exception was
raised while reading/processing the frame (the `except` path). -/
inductive FrameEvent where
  | ok (faces : List Region)
  | err (msg : String)
  deriving DecidableEq, Repr

/-- Result of the `while True` loop: final analyzer state, records persisted so
far, and the exception message when the loop aborted. -/
structure LoopOut where
  st : AnalyzerState
  records : List EngagementRecord
  error : Option String
  deriving DecidableEq, Repr

/-- The `while True` frame loop of `process_video` (ai_engine.py lines
310-364): read a frame, update tallies, and on every exact multiple of
`save_interval` persist a snapshot record and reset the interval tally.  An
error event aborts the loop, keeping the records already persisted. -/
def runLoop (si : ℕ) (st : AnalyzerState) (recs : List EngagementRecord) :
    List FrameEvent → LoopOut
  | [] => ⟨st, recs, none⟩
  | FrameEvent.err m :: _ => ⟨st, recs, some m⟩
  | FrameEvent.ok faces :: rest =>
    let st1 := processOne st faces
    if st1.frame_count % si = 0 then
      runLoop si (reset_interval_stats st1)
        (recs ++ [EngagementRecord.save (mkRecord (get_current_stats st1) st1.frame_count)])
        rest
    else
      runLoop si st1 recs rest

/-- The dictionary `process_video` returns, together with the records written
to the Result Sink during the run.  Fields that a failure dictionary does not
carry are `none`. -/
structure RunSummary where
  success : Bool
  error : Option String
  records_created : ℕ
  records : List EngagementRecord
  total_frames : Option ℕ
  total_faces_detected : Option ℕ
  final_stats : Option Stats
  deriving DecidableEq, Repr

/-- How the video source resolves: the path does not exist
(`not os.path.exists`), the container cannot be opened (`not cap.isOpened()`),
or it opens and yields this sequence of frame events. -/
inductive VideoSource where
  | notFound
  | unopenable
  | opened (frames : List FrameEvent)
  deriving DecidableEq, Repr

/-- `process_video` (ai_engine.py lines 252-415): guard clauses, the frame
loop, the final partial-interval flush, and the summary dictionary. -/
def process_video (src : VideoSource) (si : ℕ) : RunSummary :=
  match src with
  | VideoSource.notFound =>
    ⟨false, some "Video file not found", 0, [], none, none, none⟩
  | VideoSource.unopenable =>
    ⟨false, some "Could not open video file", 0, [], none, none, none⟩
  | VideoSource.opened frames =>
    let out := runLoop si initState [] frames
    match out.error with
    | some e => ⟨false, some e, out.records.length, out.records, none, none, none⟩
    | none =>
      let st := out.st
      let recs :=
        if st.frame_count % si ≠ 0 then
          let s := get_current_stats st
          if s.total_students > 0 then
            out.records ++ [EngagementRecord.save (mkRecord s st.frame_count)]
          else out.records
        else out.records
      ⟨true, none, recs.length, recs, some st.frame_count,
        some st.total_faces_detected, some (get_cumulative_stats st)⟩

/-- The frame loop specialized to per-frame tallies: each entry is
(`countFaces faces`, `faces.length`) of an ok frame.  Used to evaluate runs
whose hypotheses fix only the per-frame classification counts. -/
def runLoopC (si : ℕ) (st : AnalyzerState) (recs : List EngagementRecord) :
    List (FrameCounts × ℕ) → LoopOut
  | [] => ⟨st, recs, none⟩
  | c :: rest =>
    let st1 := applyCounts st c.1 c.2
    if st1.frame_count % si = 0 then
      runLoopC si (reset_interval_stats st1)
        (recs ++ [EngagementRecord.save (mkRecord (get_current_stats st1) st1.frame_count)])
        rest
    else
      runLoopC si st1 recs rest

/-- `process_video` on an opened, error-free source, phrased over per-frame
tallies (matches `process_video` through `runLoop_eq_runLoopC`). -/
def processC (si : ℕ) (cs : List (FrameCounts × ℕ)) : RunSummary :=
  let out := runLoopC si initState [] cs
  let st := out.st
  let recs :=
    if st.frame_count % si ≠ 0 then
      let s := get_current_stats st
      if s.total_students > 0 then
        out.records ++ [EngagementRecord.save (mkRecord s st.frame_count)]
      else out.records
    else out.records
  ⟨true, none, recs.length, recs, some st.frame_count,
    some st.total_faces_detected, some (get_cumulative_stats st)⟩

/-- One iteration of the `simulate_processing` loop (ai_engine.py lines
421-443), as a function of the drawn values: `total = randint(5, 20)`,
`attentive = randint(2, total)`, `sleepy = randint(0, total - attentive)`,
`distracted = randint(0, total - attentive - sleepy)`; `i` is the loop index. -/
def simulate_record (i total attentive sleepy distracted : ℕ) : EngagementRecord :=
  let neutral := total - attentive - sleepy - distracted
  let engagement_pct : ℚ :=
    if total > 0 then (attentive : ℚ) / (total : ℚ) * 100 else 0
  EngagementRecord.save
    { total_students := total
      attentive_count := attentive
      sleepy_count := sleepy
      distracted_count := distracted
      neutral_count := neutral
      engagement_percentage := engagement_pct
      frame_number := i * 30 }

/-- A 2x2 region that the source classifier labels Attentive
(brightness 191.25 > 100, variance 12192.1875 > 1600, aspect ratio 1). -/
def attentiveRegion : Region := [[255, 255], [0, 255]]

/-- A 1x1 region that the source classifier labels Sleepy
(brightness 50 < 80, variance 0 < 900). -/
def sleepyRegion : Region := [[50]]

/-- Scenario 1 concrete source: 90 frames, each with 2 attentive faces. -/
def scenario1Frames : List FrameEvent :=
  List.replicate 90 (FrameEvent.ok [attentiveRegion, attentiveRegion])

/-- Scenario 2 concrete source: 45 frames, 2 sleepy faces in each of the first
30 frames, no faces afterwards. -/
def scenario2Frames : List FrameEvent :=
  List.replicate 30 (FrameEvent.ok [sleepyRegion, sleepyRegion]) ++
    List.replicate 15 (FrameEvent.ok [])

section LoopLemmas

/-- The tally-level loop never reports an error. -/
lemma runLoopC_error (si : ℕ) (st : AnalyzerState) (recs : List EngagementRecord)
    (cs : List (FrameCounts × ℕ)) : (runLoopC si st recs cs).error = none := by
  induction cs generalizing st recs with
  | nil => rfl
  | cons c rest ih =>
    simp only [runLoopC]
    split
    · exact ih _ _
    · exact ih _ _

/-- On error-free sources the frame loop only depends on each frame's label
tallies and face count. -/
lemma runLoop_eq_runLoopC (si : ℕ) (st : AnalyzerState)
    (recs : List EngagementRecord) (fs : List (List Region)) :
    runLoop si st recs (fs.map FrameEvent.ok) =
      runLoopC si st recs (fs.map fun f => (countFaces f, f.length)) := by
  induction fs generalizing st recs with
  | nil => rfl
  | cons f fs ih =>
    simp only [List.map_cons, runLoop, runLoopC, processOne]
    split
    · exact ih _ _
    · exact ih _ _

/-- `process_video` on an opened, error-free source agrees with `processC` on
the per-frame tallies. -/
lemma process_video_opened_eq (si : ℕ) (fs : List (List Region)) :
    process_video (VideoSource.opened (fs.map FrameEvent.ok)) si =
      processC si (fs.map fun f => (countFaces f, f.length)) := by
  simp only [process_video, processC]
  rw [runLoop_eq_runLoopC, runLoopC_error]

/-- Splitting the frame loop at an error-free prefix. -/
lemma runLoop_append (si : ℕ) (st : AnalyzerState) (recs : List EngagementRecord)
    (xs ys : List FrameEvent) (h : (runLoop si st recs xs).error = none) :
    runLoop si st recs (xs ++ ys) =
      runLoop si (runLoop si st recs xs).st (runLoop si st recs xs).records ys := by
  induction xs generalizing st recs with
  | nil => rfl
  | cons x xs ih =>
    cases x with
    | err m => simp [runLoop] at h
    | ok faces =>
      by_cases hc : (processOne st faces).frame_count % si = 0
      · simp only [runLoop, List.cons_append, if_pos hc] at h ⊢
        exact ih _ _ h
      · simp only [runLoop, List.cons_append, if_neg hc] at h ⊢
        exact ih _ _ h

/-- Every record the frame loop persists is a saved current-interval snapshot,
so any property of such snapshots holds of all loop records. -/
lemma runLoop_records_inv (P : EngagementRecord → Prop)
    (hP : ∀ (st : AnalyzerState) (fn : ℕ),
      P (EngagementRecord.save (mkRecord (get_current_stats st) fn)))
    (si : ℕ) (st : AnalyzerState) (recs : List EngagementRecord)
    (fes : List FrameEvent) (hacc : ∀ r ∈ recs, P r) :
    ∀ r ∈ (runLoop si st recs fes).records, P r := by
  induction fes generalizing st recs with
  | nil => exact hacc
  | cons fe fes ih =>
    cases fe with
    | err m => exact hacc
    | ok faces =>
      simp only [runLoop]
      split
      · apply ih
        intro r hr
        rcases List.mem_append.mp hr with hr | hr
        · exact hacc r hr
        · rw [List.mem_singleton.mp hr]
          exact hP _ _
      · exact ih _ _ hacc

/-- Every record `process_video` persists (interval flushes and the final
partial flush alike) is a saved current-interval snapshot. -/
lemma process_video_records_inv (P : EngagementRecord → Prop)
    (hP : ∀ (st : AnalyzerState) (fn : ℕ),
      P (EngagementRecord.save (mkRecord (get_current_stats st) fn)))
    (src : VideoSource) (si : ℕ) :
    ∀ r ∈ (process_video src si).records, P r := by
  cases src with
  | notFound => intro r hr; simp [process_video] at hr
  | unopenable => intro r hr; simp [process_video] at hr
  | opened frames =>
    simp only [process_video]
    have hloop := runLoop_records_inv P hP si initState [] frames (by simp)
    cases herr : (runLoop si initState [] frames).error with
    | some e => exact hloop
    | none =>
      intro r hr
      have hr2 : r ∈
          (if (runLoop si initState [] frames).st.frame_count % si ≠ 0 then
            if (get_current_stats (runLoop si initState [] frames).st).total_students > 0 then
              (runLoop si initState [] frames).records ++
                [EngagementRecord.save
                  (mkRecord (get_current_stats (runLoop si initState [] frames).st)
                    (runLoop si initState [] frames).st.frame_count)]
            else (runLoop si initState [] frames).records
          else (runLoop si initState [] frames).records) := hr
      by_cases h1 : (runLoop si initState [] frames).st.frame_count % si ≠ 0
      · rw [if_pos h1] at hr2
        by_cases h2 :
            (get_current_stats (runLoop si initState [] frames).st).total_students > 0
        · rw [if_pos h2] at hr2
          rcases List.mem_append.mp hr2 with hm | hm
          · exact hloop r hm
          · rw [List.mem_singleton.mp hm]
            exact hP _ _
        · rw [if_neg h2] at hr2
          exact hloop r hr2
      · rw [if_neg h1] at hr2
        exact hloop r hr2

/-- If every face in the list classifies Attentive, the per-frame tally is
(length, 0, 0, 0); generalized over the fold accumulator. -/
lemma countFaces_go_attentive (faces : List Region) (c : FrameCounts)
    (h : ∀ r ∈ faces, classify_behavior (some r) = Label.attentive) :
    faces.foldl
      (fun c r =>
        match classify_behavior (some r) with
        | Label.attentive => { c with att := c.att + 1 }
        | Label.sleepy => { c with slp := c.slp + 1 }
        | Label.distracted => { c with dis := c.dis + 1 }
        | Label.neutral => { c with neu := c.neu + 1 })
      c = ⟨c.att + faces.length, c.slp, c.dis, c.neu⟩ := by
  induction faces generalizing c with
  | nil => simp
  | cons f fs ih =>
    have hf : classify_behavior (some f) = Label.attentive := h f (by simp)
    simp only [List.foldl_cons, hf]
    rw [ih _ (fun r hr => h r (by simp [hr]))]
    simp [Nat.add_assoc, Nat.add_comm 1 fs.length]

/-- If every face in the list classifies Attentive, `countFaces` is
(length, 0, 0, 0). -/
lemma countFaces_attentive (faces : List Region)
    (h : ∀ r ∈ faces, classify_behavior (some r) = Label.attentive) :
    countFaces faces = ⟨faces.length, 0, 0, 0⟩ := by
  unfold countFaces
  rw [countFaces_go_attentive faces ⟨0, 0, 0, 0⟩ h]
  simp

/-- If every face in the list classifies Sleepy, the per-frame tally is
(0, length, 0, 0); generalized over the fold accumulator. -/
lemma countFaces_go_sleepy (faces : List Region) (c : FrameCounts)
    (h : ∀ r ∈ faces, classify_behavior (some r) = Label.sleepy) :
    faces.foldl
      (fun c r =>
        match classify_behavior (some r) with
        | Label.attentive => { c with att := c.att + 1 }
        | Label.sleepy => { c with slp := c.slp + 1 }
        | Label.distracted => { c with dis := c.dis + 1 }
        | Label.neutral => { c with neu := c.neu + 1 })
      c = ⟨c.att, c.slp + faces.length, c.dis, c.neu⟩ := by
  induction faces generalizing c with
  | nil => simp
  | cons f fs ih =>
    have hf : classify_behavior (some f) = Label.sleepy := h f (by simp)
    simp only [List.foldl_cons, hf]
    rw [ih _ (fun r hr => h r (by simp [hr]))]
    simp [Nat.add_assoc, Nat.add_comm 1 fs.length]

/-- If every face in the list classifies Sleepy, `countFaces` is
(0, length, 0, 0). -/
lemma countFaces_sleepy (faces : List Region)
    (h : ∀ r ∈ faces, classify_behavior (some r) = Label.sleepy) :
    countFaces faces = ⟨0, faces.length, 0, 0⟩ := by
  unfold countFaces
  rw [countFaces_go_sleepy faces ⟨0, 0, 0, 0⟩ h]
  simp

/-- The model layer's recomputation in `save` establishes the engagement
percentage invariant on the stored row, whatever was passed in. -/
lemma save_engagement_pct (r : EngagementRecord) :
    (EngagementRecord.save r).engagement_percentage =
      (if (EngagementRecord.save r).total_students > 0 then
        ((EngagementRecord.save r).attentive_count : ℚ) /
          ((EngagementRecord.save r).total_students : ℚ) * 100
      else 0) := by
  by_cases h : r.total_students > 0 <;> simp [EngagementRecord.save, h]

/-- `save` never touches the count fields. -/
lemma save_counts (r : EngagementRecord) :
    (EngagementRecord.save r).total_students = r.total_students ∧
    (EngagementRecord.save r).attentive_count = r.attentive_count ∧
    (EngagementRecord.save r).sleepy_count = r.sleepy_count ∧
    (EngagementRecord.save r).distracted_count = r.distracted_count ∧
    (EngagementRecord.save r).neutral_count = r.neutral_count := by
  by_cases h : r.total_students > 0 <;> simp [EngagementRecord.save, h]

end LoopLemmas

/-- Claim C3: for every input (None, empty, zero-width or zero-height regions
included) classify_behavior returns one of the four labels — it is a total
function in the embedding, so it raises nothing — and every empty (zero-area
or missing) region yields Neutral. -/
theorem classify_total_empty_neutral :
    (∀ fr : Option Region,
      classify_behavior fr = Label.attentive ∨ classify_behavior fr = Label.sleepy ∨
      classify_behavior fr = Label.distracted ∨ classify_behavior fr = Label.neutral) ∧
    classify_behavior none = Label.neutral ∧
    (∀ r : Region, regionSize r = 0 → classify_behavior (some r) = Label.neutral) ∧
    (∀ r : Region, regionH r = 0 ∨ regionW r = 0 →
      classify_behavior (some r) = Label.neutral) := by
  refine ⟨?_, rfl, ?_, ?_⟩
  · intro fr
    cases h : classify_behavior fr <;> simp
  · intro r h
    simp [classify_behavior, h]
  · intro r h
    rcases h with h | h <;> simp [classify_behavior, regionSize, h]

/-- Witness for C3: the empty region is classified Neutral. -/
theorem classify_total_empty_neutral_witness :
    classify_behavior (some ([] : Region)) = Label.neutral :=
  classify_total_empty_neutral.2.2.1 [] (by decide)

/-- Claim C6: a missing path or an unopenable container yields a failed run
summary with a non-empty error string, zero records created, and no record
written. -/
theorem process_video_source_failures (si : ℕ) :
    (process_video VideoSource.notFound si).success = false ∧
    (process_video VideoSource.notFound si).error = some "Video file not found" ∧
    (process_video VideoSource.notFound si).records_created = 0 ∧
    (process_video VideoSource.notFound si).records = [] ∧
    (process_video VideoSource.unopenable si).success = false ∧
    (process_video VideoSource.unopenable si).error = some "Could not open video file" ∧
    (process_video VideoSource.unopenable si).records_created = 0 ∧
    (process_video VideoSource.unopenable si).records = [] ∧
    "Video file not found" ≠ "" ∧ "Could not open video file" ≠ "" :=
  ⟨rfl, rfl, rfl, rfl, rfl, rfl, rfl, rfl, by decide, by decide⟩

/-- Claim C9: saving a record recomputes engagement_percentage from
attentive_count and total_students, overwriting whatever the caller supplied,
so every stored record satisfies the percentage invariant. -/
theorem save_overwrites_engagement_percentage :
    (∀ (r : EngagementRecord) (x : ℚ),
      EngagementRecord.save { r with engagement_percentage := x } =
        EngagementRecord.save r) ∧
    (∀ r : EngagementRecord,
      (EngagementRecord.save r).engagement_percentage =
        (if (EngagementRecord.save r).total_students > 0 then
          ((EngagementRecord.save r).attentive_count : ℚ) /
            ((EngagementRecord.save r).total_students : ℚ) * 100
        else 0)) := by
  constructor
  · intro r x
    by_cases h : r.total_students > 0 <;> simp [EngagementRecord.save, h]
  · exact save_engagement_pct

/-- Claim C4: every interval snapshot, cumulative snapshot, and persisted
record has engagement_percentage = attentive_count / total_students * 100 when
total_students > 0 and 0 otherwise. -/
theorem engagement_percentage_invariant :
    (∀ st : AnalyzerState,
      (get_current_stats st).engagement_percentage =
        (if (get_current_stats st).total_students > 0 then
          ((get_current_stats st).attentive_count : ℚ) /
            ((get_current_stats st).total_students : ℚ) * 100
        else 0)) ∧
    (∀ st : AnalyzerState,
      (get_cumulative_stats st).engagement_percentage =
        (if (get_cumulative_stats st).total_students > 0 then
          ((get_cumulative_stats st).attentive_count : ℚ) /
            ((get_cumulative_stats st).total_students : ℚ) * 100
        else 0)) ∧
    (∀ (src : VideoSource) (si : ℕ),
      ∀ r ∈ (process_video src si).records,
        r.engagement_percentage =
          (if r.total_students > 0 then
            (r.attentive_count : ℚ) / (r.total_students : ℚ) * 100
          else 0)) := by
  refine ⟨fun st => rfl, fun st => rfl, fun src si => ?_⟩
  exact process_video_records_inv _ (fun st fn => save_engagement_pct _) src si

/-- Witness for C4: the single record of the 45-frame sleepy scenario
satisfies the percentage invariant. -/
theorem engagement_percentage_invariant_witness :
    ({ total_students := 60, attentive_count := 0, sleepy_count := 60,
       distracted_count := 0, neutral_count := 0, engagement_percentage := 0,
       frame_number := 30 } : EngagementRecord).engagement_percentage =
      (if ({ total_students := 60, attentive_count := 0, sleepy_count := 60,
             distracted_count := 0, neutral_count := 0, engagement_percentage := 0,
             frame_number := 30 } : EngagementRecord).total_students > 0 then
        (({ total_students := 60, attentive_count := 0, sleepy_count := 60,
            distracted_count := 0, neutral_count := 0, engagement_percentage := 0,
            frame_number := 30 } : EngagementRecord).attentive_count : ℚ) /
          (({ total_students := 60, attentive_count := 0, sleepy_count := 60,
              distracted_count := 0, neutral_count := 0, engagement_percentage := 0,
              frame_number := 30 } : EngagementRecord).total_students : ℚ) * 100
      else 0) :=
  engagement_percentage_invariant.2.2 (VideoSource.opened scenario2Frames) 30 _
    (by with_unfolding_all decide)

/-- Claim C8: the four label counts sum to total_students in every interval
snapshot, every cumulative snapshot, every record persisted by process_video,
and every record produced by the simulation fallback. -/
theorem counts_conservation :
    (∀ st : AnalyzerState,
      (get_current_stats st).attentive_count + (get_current_stats st).sleepy_count +
        (get_current_stats st).distracted_count + (get_current_stats st).neutral_count =
        (get_current_stats st).total_students) ∧
    (∀ st : AnalyzerState,
      (get_cumulative_stats st).attentive_count + (get_cumulative_stats st).sleepy_count +
        (get_cumulative_stats st).distracted_count + (get_cumulative_stats st).neutral_count =
        (get_cumulative_stats st).total_students) ∧
    (∀ (src : VideoSource) (si : ℕ),
      ∀ r ∈ (process_video src si).records,
        r.attentive_count + r.sleepy_count + r.distracted_count + r.neutral_count =
          r.total_students) ∧
    (∀ i total attentive sleepy distracted : ℕ,
      5 ≤ total → total ≤ 20 → 2 ≤ attentive → attentive ≤ total →
      sleepy ≤ total - attentive → distracted ≤ total - attentive - sleepy →
      (simulate_record i total attentive sleepy distracted).attentive_count +
        (simulate_record i total attentive sleepy distracted).sleepy_count +
        (simulate_record i total attentive sleepy distracted).distracted_count +
        (simulate_record i total attentive sleepy distracted).neutral_count =
        (simulate_record i total attentive sleepy distracted).total_students) := by
  refine ⟨fun st => rfl, fun st => rfl, fun src si => ?_, ?_⟩
  · apply process_video_records_inv
    intro st fn
    obtain ⟨h1, h2, h3, h4, h5⟩ :=
      save_counts (mkRecord (get_current_stats st) fn)
    rw [h1, h2, h3, h4, h5]
    rfl
  · intro i total attentive sleepy distracted h5 h20 h2a hat hsl hdi
    obtain ⟨h1, h2, h3, h4, h5x⟩ := save_counts
      { total_students := total, attentive_count := attentive, sleepy_count := sleepy,
        distracted_count := distracted,
        neutral_count := total - attentive - sleepy - distracted,
        engagement_percentage :=
          if total > 0 then (attentive : ℚ) / (total : ℚ) * 100 else 0,
        frame_number := i * 30 }
    simp only [simulate_record, h1, h2, h3, h4, h5x]
    omega

/-- Witness for C8: the persisted-record part at the 45-frame sleepy scenario
and the simulation part at a concrete draw. -/
theorem counts_conservation_witness :
    (({ total_students := 60, attentive_count := 0, sleepy_count := 60,
        distracted_count := 0, neutral_count := 0, engagement_percentage := 0,
        frame_number := 30 } : EngagementRecord).attentive_count +
      ({ total_students := 60, attentive_count := 0, sleepy_count := 60,
         distracted_count := 0, neutral_count := 0, engagement_percentage := 0,
         frame_number := 30 } : EngagementRecord).sleepy_count +
      ({ total_students := 60, attentive_count := 0, sleepy_count := 60,
         distracted_count := 0, neutral_count := 0, engagement_percentage := 0,
         frame_number := 30 } : EngagementRecord).distracted_count +
      ({ total_students := 60, attentive_count := 0, sleepy_count := 60,
         distracted_count := 0, neutral_count := 0, engagement_percentage := 0,
         frame_number := 30 } : EngagementRecord).neutral_count =
      ({ total_students := 60, attentive_count := 0, sleepy_count := 60,
         distracted_count := 0, neutral_count := 0, engagement_percentage := 0,
         frame_number := 30 } : EngagementRecord).total_students) ∧
    ((simulate_record 0 10 3 4 2).attentive_count +
      (simulate_record 0 10 3 4 2).sleepy_count +
      (simulate_record 0 10 3 4 2).distracted_count +
      (simulate_record 0 10 3 4 2).neutral_count =
      (simulate_record 0 10 3 4 2).total_students) :=
  ⟨counts_conservation.2.2.1 (VideoSource.opened scenario2Frames) 30 _
      (by with_unfolding_all decide),
    counts_conservation.2.2.2 0 10 3 4 2 (by decide) (by decide) (by decide)
      (by decide) (by decide) (by decide)⟩

/-- Claim C10: every simulated record has attentive_count at least 2 and
engagement percentage at least 10 (total in 5..20, attentive in 2..total),
while a genuine analysis record can be fully disengaged (percentage 0). -/
theorem simulated_records_never_fully_disengaged :
    (∀ i total attentive sleepy distracted : ℕ,
      5 ≤ total → total ≤ 20 → 2 ≤ attentive → attentive ≤ total →
      sleepy ≤ total - attentive → distracted ≤ total - attentive - sleepy →
      2 ≤ (simulate_record i total attentive sleepy distracted).attentive_count ∧
      10 ≤ (simulate_record i total attentive sleepy distracted).engagement_percentage) ∧
    ((process_video (VideoSource.opened [FrameEvent.ok [sleepyRegion]]) 30).records.map
      (fun r => r.engagement_percentage)) = [0] := by
  constructor
  · intro i total attentive sleepy distracted h5 h20 h2a hat hsl hdi
    have htot : 0 < total := by omega
    constructor
    · have := (save_counts
        { total_students := total, attentive_count := attentive, sleepy_count := sleepy,
          distracted_count := distracted,
          neutral_count := total - attentive - sleepy - distracted,
          engagement_percentage :=
            if total > 0 then (attentive : ℚ) / (total : ℚ) * 100 else 0,
          frame_number := i * 30 }).2.1
      simp only [simulate_record, this]
      exact h2a
    · have hq : (simulate_record i total attentive sleepy distracted).engagement_percentage =
          (attentive : ℚ) / (total : ℚ) * 100 := by
        simp [simulate_record, EngagementRecord.save, htot]
      rw [hq, div_mul_eq_mul_div, le_div_iff₀ (by exact_mod_cast htot)]
      have ha : (2 : ℚ) ≤ (attentive : ℚ) := by exact_mod_cast h2a
      have ht : (total : ℚ) ≤ 20 := by exact_mod_cast h20
      nlinarith
  · with_unfolding_all decide

/-- Witness for C10: a concrete simulated draw has attentive_count 2 and
engagement percentage exactly 10. -/
theorem simulated_records_never_fully_disengaged_witness :
    2 ≤ (simulate_record 1 20 2 10 5).attentive_count ∧
    10 ≤ (simulate_record 1 20 2 10 5).engagement_percentage :=
  simulated_records_never_fully_disengaged.1 1 20 2 10 5 (by decide) (by decide)
    (by decide) (by decide) (by decide) (by decide)

/-- Claim C2: the classifier decision follows the fixed rule order
Sleepy, Distracted, Attentive, Neutral of the spec; any non-empty region with
mean brightness, population standard deviation c and aspect ratio w/h is
classified exactly by that chain; brightness 50, contrast 10, aspect 1.0 gives
Sleepy and brightness 110, contrast 50, aspect 2.0 gives Distracted. -/
theorem classify_rule_order :
    (∀ b c a : ℚ, classifyStats b c a = classifySpecRules b c a) ∧
    (∀ (r : Region) (c : ℚ), regionH r ≠ 0 → regionW r ≠ 0 → 0 ≤ c →
      c ^ 2 = regionVar r →
      classify_behavior (some r) =
        classifyStats (regionMean r) c ((regionW r : ℚ) / (regionH r : ℚ))) ∧
    classifyStats 50 10 1 = Label.sleepy ∧
    classifyStats 110 50 2 = Label.distracted := by
  refine ⟨fun b c a => rfl, ?_, by with_unfolding_all decide,
    by with_unfolding_all decide⟩
  intro r c hh hw hc hcc
  have hh0 : 0 < regionH r := Nat.pos_of_ne_zero hh
  have hsz : regionSize r ≠ 0 := Nat.mul_ne_zero hh hw
  have hor : ¬(regionH r = 0 ∨ regionW r = 0) := by
    push_neg
    exact ⟨hh, hw⟩
  have h30 : regionVar r < 900 ↔ c < 30 := by
    rw [← hcc]
    constructor <;> intro h <;> nlinarith
  have h40 : 1600 < regionVar r ↔ 40 < c := by
    rw [← hcc]
    constructor <;> intro h <;> nlinarith
  simp only [classify_behavior, classifyStats, if_neg hsz, if_neg hor, if_pos hh0,
    gt_iff_lt, h30, h40]

/-- Witness for C2: instantiating the region-to-statistics link at the
all-50 1x1 region, whose variance is 0. -/
theorem classify_rule_order_witness :
    classify_behavior (some sleepyRegion) =
      classifyStats (regionMean sleepyRegion) 0
        ((regionW sleepyRegion : ℚ) / (regionH sleepyRegion : ℚ)) :=
  classify_rule_order.2.1 sleepyRegion 0 (by decide) (by decide)
    (by with_unfolding_all decide) (by with_unfolding_all decide)

/-- Claim C7: an unexpected error while reading or processing a frame mid-run
stops the loop and returns a failed summary whose records_created equals the
number of records persisted before the error; those records are kept. -/
theorem midrun_error_preserves_records :
    ∀ (pre post : List FrameEvent) (e : String) (si : ℕ),
      (runLoop si initState [] pre).error = none →
      (process_video (VideoSource.opened (pre ++ FrameEvent.err e :: post)) si).success
          = false ∧
      (process_video (VideoSource.opened (pre ++ FrameEvent.err e :: post)) si).error
          = some e ∧
      (process_video (VideoSource.opened (pre ++ FrameEvent.err e :: post)) si).records_created
          = (runLoop si initState [] pre).records.length ∧
      (process_video (VideoSource.opened (pre ++ FrameEvent.err e :: post)) si).records
          = (runLoop si initState [] pre).records := by
  intro pre post e si h
  have hsplit := runLoop_append si initState [] pre (FrameEvent.err e :: post) h
  have hstep :
      runLoop si (runLoop si initState [] pre).st (runLoop si initState [] pre).records
        (FrameEvent.err e :: post) =
      ⟨(runLoop si initState [] pre).st, (runLoop si initState [] pre).records, some e⟩ :=
    rfl
  simp only [process_video, hsplit, hstep]
  simp

/-- Witness for C7: an error on the very first frame fails the run with zero
records preserved. -/
theorem midrun_error_preserves_records_witness :
    (process_video (VideoSource.opened ([] ++ FrameEvent.err "read failure" :: []))
        30).success = false ∧
    (process_video (VideoSource.opened ([] ++ FrameEvent.err "read failure" :: []))
        30).error = some "read failure" ∧
    (process_video (VideoSource.opened ([] ++ FrameEvent.err "read failure" :: []))
        30).records_created = (runLoop 30 initState [] []).records.length ∧
    (process_video (VideoSource.opened ([] ++ FrameEvent.err "read failure" :: []))
        30).records = (runLoop 30 initState [] []).records :=
  midrun_error_preserves_records [] [] "read failure" 30 rfl

/-- Claim C5: at normal end-of-stream one final partial-interval record is
emitted if and only if the frame counter is not an exact multiple of
save_interval and the interval tally is non-empty; in the 45-frame scenario
with faces only in frames 1-30 exactly one record is created and no final
flush occurs. -/
theorem final_flush_iff :
    (∀ (frames : List FrameEvent) (si : ℕ),
      0 < si →
      (runLoop si initState [] frames).error = none →
      (process_video (VideoSource.opened frames) si).records =
        (runLoop si initState [] frames).records ++
          (if (runLoop si initState [] frames).st.frame_count % si ≠ 0 ∧
              0 < (get_current_stats (runLoop si initState [] frames).st).total_students
            then
            [EngagementRecord.save
              (mkRecord (get_current_stats (runLoop si initState [] frames).st)
                (runLoop si initState [] frames).st.frame_count)]
          else [])) ∧
    (∀ fs : List (List Region),
      fs.length = 45 →
      (∀ f ∈ fs.take 30, f.length = 2 ∧
        ∀ r ∈ f, classify_behavior (some r) = Label.sleepy) →
      (∀ f ∈ fs.drop 30, f = []) →
      (process_video (VideoSource.opened (fs.map FrameEvent.ok)) 30).records_created
          = 1 ∧
      (process_video (VideoSource.opened (fs.map FrameEvent.ok)) 30).records =
        (runLoop 30 initState [] (fs.map FrameEvent.ok)).records) := by
  constructor
  · intro frames si hsi herr
    have hrec : (process_video (VideoSource.opened frames) si).records =
        (if (runLoop si initState [] frames).st.frame_count % si ≠ 0 then
          if (get_current_stats (runLoop si initState [] frames).st).total_students > 0
            then
            (runLoop si initState [] frames).records ++
              [EngagementRecord.save
                (mkRecord (get_current_stats (runLoop si initState [] frames).st)
                  (runLoop si initState [] frames).st.frame_count)]
          else (runLoop si initState [] frames).records
        else (runLoop si initState [] frames).records) := by
      simp only [process_video]
      rw [herr]
    rw [hrec]
    by_cases h1 : (runLoop si initState [] frames).st.frame_count % si ≠ 0
    · by_cases h2 :
          (get_current_stats (runLoop si initState [] frames).st).total_students > 0
      · rw [if_pos h1, if_pos h2, if_pos ⟨h1, h2⟩]
      · rw [if_pos h1, if_neg h2, if_neg (by tauto), List.append_nil]
    · rw [if_neg h1, if_neg (by tauto), List.append_nil]
  · intro fs hlen htake hdrop
    have hmap : fs.map (fun f => (countFaces f, f.length)) =
        List.replicate 30 ((⟨0, 2, 0, 0⟩ : FrameCounts), 2) ++
          List.replicate 15 ((⟨0, 0, 0, 0⟩ : FrameCounts), 0) := by
      have hsplit : fs.map (fun f => (countFaces f, f.length)) =
          (fs.take 30).map (fun f => (countFaces f, f.length)) ++
            (fs.drop 30).map (fun f => (countFaces f, f.length)) := by
        rw [← List.map_append, List.take_append_drop]
      rw [hsplit]
      congr 1
      · rw [List.eq_replicate_iff]
        constructor
        · simp [hlen]
        · intro b hb
          rcases List.mem_map.mp hb with ⟨f, hf, rfl⟩
          obtain ⟨hf2, hfsleepy⟩ := htake f hf
          rw [countFaces_sleepy f hfsleepy, hf2]
      · rw [List.eq_replicate_iff]
        constructor
        · simp [hlen]
        · intro b hb
          rcases List.mem_map.mp hb with ⟨f, hf, rfl⟩
          rw [hdrop f hf]
          rfl
    rw [process_video_opened_eq, runLoop_eq_runLoopC, hmap]
    constructor
    · with_unfolding_all decide
    · with_unfolding_all decide

/-- Witness for C5: the concrete 45-frame sleepy scenario has exactly one
record and no final flush. -/
theorem final_flush_iff_witness :
    (process_video (VideoSource.opened
        ((List.replicate 30 ([sleepyRegion, sleepyRegion] : List Region) ++
          List.replicate 15 ([] : List Region)).map FrameEvent.ok)) 30).records_created
        = 1 ∧
    (process_video (VideoSource.opened
        ((List.replicate 30 ([sleepyRegion, sleepyRegion] : List Region) ++
          List.replicate 15 ([] : List Region)).map FrameEvent.ok)) 30).records =
      (runLoop 30 initState []
        ((List.replicate 30 ([sleepyRegion, sleepyRegion] : List Region) ++
          List.replicate 15 ([] : List Region)).map FrameEvent.ok)).records :=
  final_flush_iff.2
    (List.replicate 30 ([sleepyRegion, sleepyRegion] : List Region) ++
      List.replicate 15 ([] : List Region))
    (by decide) (by with_unfolding_all decide) (by with_unfolding_all decide)

/-- Counterexample to claim C1 as stated: on the claim's own input — 90
frames, each with exactly 2 detected faces, every face classified Attentive,
save_interval 30 — the three records have total_students 60, not 2: the
interval tally accumulates the 2 faces of each of the 30 frames. -/
theorem interval_records_counterexample :
    ((process_video (VideoSource.opened scenario1Frames) 30).records.map
      (fun r => r.total_students)) = [60, 60, 60] ∧ (60 : ℕ) ≠ 2 := by
  constructor
  · with_unfolding_all decide
  · decide

/-- Claim C1 (amended): for a 90-frame source with exactly 2 detected faces
per frame, all classified Attentive, save_interval 30 gives exactly 3 records,
each with total_students 60, attentive_count 60 and engagement percentage
100.0 (each of the 30 frames of an interval contributes its 2 faces to the
tally). -/
theorem interval_records_amended :
    ∀ fs : List (List Region),
      fs.length = 90 →
      (∀ f ∈ fs, f.length = 2) →
      (∀ f ∈ fs, ∀ r ∈ f, classify_behavior (some r) = Label.attentive) →
      (process_video (VideoSource.opened (fs.map FrameEvent.ok)) 30).records_created
          = 3 ∧
      ∀ rc ∈ (process_video (VideoSource.opened (fs.map FrameEvent.ok)) 30).records,
        rc.total_students = 60 ∧ rc.attentive_count = 60 ∧
        rc.engagement_percentage = 100 := by
  intro fs hlen h2 hatt
  have hmap : fs.map (fun f => (countFaces f, f.length)) =
      List.replicate 90 ((⟨2, 0, 0, 0⟩ : FrameCounts), 2) := by
    rw [List.eq_replicate_iff]
    constructor
    · simp [hlen]
    · intro b hb
      rcases List.mem_map.mp hb with ⟨f, hf, rfl⟩
      rw [countFaces_attentive f (hatt f hf), h2 f hf]
  rw [process_video_opened_eq, hmap]
  constructor
  · with_unfolding_all decide
  · with_unfolding_all decide

/-- Witness for the amended C1: the concrete 90-frame attentive scenario. -/
theorem interval_records_amended_witness :
    (process_video (VideoSource.opened
        ((List.replicate 90 ([attentiveRegion, attentiveRegion] : List Region)).map
          FrameEvent.ok)) 30).records_created = 3 ∧
    ∀ rc ∈ (process_video (VideoSource.opened
        ((List.replicate 90 ([attentiveRegion, attentiveRegion] : List Region)).map
          FrameEvent.ok)) 30).records,
      rc.total_students = 60 ∧ rc.attentive_count = 60 ∧
      rc.engagement_percentage = 100 :=
  interval_records_amended
    (List.replicate 90 ([attentiveRegion, attentiveRegion] : List Region))
    (by decide) (by decide) (by with_unfolding_all decide)
